import Mathlib

/-!
Shallow embedding of the const_graphs crate (src/graph.rs and
src/weighted_graph.rs): two fixed-capacity adjacency-matrix graph
containers, an unweighted one storing booleans and a weighted one storing
optional f32 weights, with directed and undirected edge insertion and
removal, row and column queries, density and clear.

Modelling conventions.
* The compile-time constant SIZE becomes a natural-number parameter n.
* Rust slice indexing `self.data[i][j]` panics when an index is out of
  range; every operation that indexes is embedded as a function into
  Except Err, returning Err.indexOutOfRange exactly when the source would
  panic with an index-out-of-bounds error.
* usize arithmetic is checked, following const-evaluation semantics (the
  crate's methods are const fn; overflow in const evaluation is always an
  error, and a debug build panics at runtime): SIZE - 1 underflows when
  SIZE = 0 and is embedded as Err.arithOverflow.  The multiplication
  SIZE * (SIZE - 1) cannot overflow for any instantiable SIZE, because the
  matrix of SIZE * SIZE cells must fit in isize::MAX bytes, so it is
  embedded as exact natural multiplication.
* The edge counter in density is declared `let mut edges = 0;` and later
  cast with `edges as f32`, so Rust infers i32 for it; it overflows when
  more than 2^31 - 1 cells are set, which is embedded as Err.arithOverflow.
* f32 weight values are only ever stored and returned, never computed
  with, so they are embedded as rationals.
-/

/-- The two panic/const-eval failure kinds the embedded operations can
produce: a slice index out of bounds, or integer overflow in checked
arithmetic. -/
inductive Err where
  | indexOutOfRange : Err
  | arithOverflow : Err
deriving DecidableEq

/-- Model of the f32 values produced by density: NaN, positive infinity,
or a finite value given as an exact rational.  IEEE 754 division yields
NaN for 0/0, positive infinity for positive/0, and the correctly rounded
quotient otherwise; every finite quotient that a theorem in this
development evaluates (0, 1/2, 1) is exactly representable in f32, so on
those the exact rational is the f32 result. -/
inductive F32 where
  | nan : F32
  | inf : F32
  | fin : ℚ → F32
deriving DecidableEq

/-- Models the Rust expression `edges as f32 / max as f32` on natural
operands: 0/0 is NaN, positive/0 is positive infinity, otherwise the
quotient as an exact rational (see the comment on F32).  In the nonzero
branch `mkRat a b` is the rational a / b (`Rat.mkRat_eq_div`); it is used
directly so that concrete instances evaluate. -/
def f32div (a b : ℕ) : F32 :=
  if b = 0 then (if a = 0 then F32.nan else F32.inf)
  else F32.fin (mkRat a b)

/-- The i32 maximum, bound of the edge counter in density. -/
def i32Max : ℕ := 2 ^ 31 - 1

instance {ε α : Type} [DecidableEq ε] [DecidableEq α] :
    DecidableEq (Except ε α) := fun x y =>
  match x, y with
  | .ok a, .ok b => decidable_of_iff (a = b) (by simp)
  | .ok _, .error _ => .isFalse (by simp)
  | .error _, .ok _ => .isFalse (by simp)
  | .error e, .error f => decidable_of_iff (e = f) (by simp)

/-- Embeds `pub struct Graph<const SIZE: usize> { data: [[bool; SIZE]; SIZE] }`:
the row-major boolean adjacency matrix, cell (i, j) meaning an edge from
i to j. -/
structure Graph (n : ℕ) where
  data : Fin n → Fin n → Bool

instance {n : ℕ} : DecidableEq (Graph n) := fun g h =>
  decidable_of_iff (g.data = h.data) (by cases g; cases h; simp)

namespace Graph

variable {n : ℕ}

/-- Embeds `Graph::new`: every cell false. -/
def new (n : ℕ) : Graph n := ⟨fun _ _ => false⟩

/-- Embeds `Graph::add_edge`: `self.data[i][j] = true`, panicking iff i
or j is out of range. -/
def add_edge (g : Graph n) (i j : ℕ) : Except Err (Graph n) :=
  if h : i < n ∧ j < n then
    .ok ⟨fun a b => if a = ⟨i, h.1⟩ ∧ b = ⟨j, h.2⟩ then true else g.data a b⟩
  else .error .indexOutOfRange

/-- Embeds `Graph::add_edge_undirected`: sets both (i, j) and (j, i),
panicking iff i or j is out of range. -/
def add_edge_undirected (g : Graph n) (i j : ℕ) : Except Err (Graph n) :=
  if h : i < n ∧ j < n then
    .ok ⟨fun a b =>
      if (a = ⟨i, h.1⟩ ∧ b = ⟨j, h.2⟩) ∨ (a = ⟨j, h.2⟩ ∧ b = ⟨i, h.1⟩) then true
      else g.data a b⟩
  else .error .indexOutOfRange

/-- Embeds `Graph::remove_edge`: `self.data[i][j] = false`. -/
def remove_edge (g : Graph n) (i j : ℕ) : Except Err (Graph n) :=
  if h : i < n ∧ j < n then
    .ok ⟨fun a b => if a = ⟨i, h.1⟩ ∧ b = ⟨j, h.2⟩ then false else g.data a b⟩
  else .error .indexOutOfRange

/-- Embeds `Graph::remove_edge_undirected`: clears both (i, j) and (j, i). -/
def remove_edge_undirected (g : Graph n) (i j : ℕ) : Except Err (Graph n) :=
  if h : i < n ∧ j < n then
    .ok ⟨fun a b =>
      if (a = ⟨i, h.1⟩ ∧ b = ⟨j, h.2⟩) ∨ (a = ⟨j, h.2⟩ ∧ b = ⟨i, h.1⟩) then false
      else g.data a b⟩
  else .error .indexOutOfRange

/-- Embeds `Graph::has_edge`: reads `self.data[i][j]`. -/
def has_edge (g : Graph n) (i j : ℕ) : Except Err Bool :=
  if h : i < n ∧ j < n then .ok (g.data ⟨i, h.1⟩ ⟨j, h.2⟩)
  else .error .indexOutOfRange

/-- Embeds `Graph::get_edges`: returns row `vertex` (`&self.data[vertex]`),
panicking iff vertex is out of range. -/
def get_edges (g : Graph n) (v : ℕ) : Except Err (Fin n → Bool) :=
  if h : v < n then .ok (fun b => g.data ⟨v, h⟩ b) else .error .indexOutOfRange

/-- Embeds `Graph::get_inverse_edges`: starts from an all-false array and
loops neighbor = 0..SIZE writing `edges[neighbor] = self.data[neighbor][vertex]`.
When SIZE = 0 the loop body never runs, so no index is ever checked and
the initial (empty) array is returned even for an out-of-range vertex;
when SIZE > 0 the first iteration reads `self.data[0][vertex]` and panics
iff vertex is out of range. -/
def get_inverse_edges (g : Graph n) (v : ℕ) : Except Err (Fin n → Bool) :=
  if h : v < n then .ok (fun a => g.data a ⟨v, h⟩)
  else if n = 0 then .ok (fun _ => false)
  else .error .indexOutOfRange

/-- Embeds `Graph::max_number_of_edges`: `SIZE * (SIZE - 1)` on usize.
The subtraction underflows when SIZE = 0 (const-eval error / debug
panic); the multiplication is exact for every instantiable SIZE (see the
file comment). -/
def max_number_of_edges (n : ℕ) : Except Err ℕ :=
  if n = 0 then .error .arithOverflow else .ok (n * (n - 1))

/-- The edge count computed by the nested loop in `Graph::density`: the
number of true cells over all n * n positions, diagonal included. -/
def countEdges (g : Graph n) : ℕ :=
  ∑ a : Fin n, ∑ b : Fin n, if g.data a b then 1 else 0

/-- Embeds `Graph::density`: count the true cells with an i32 counter
(overflow iff the count exceeds i32Max), then divide by
`max_number_of_edges()` in f32. -/
def density (g : Graph n) : Except Err F32 :=
  if countEdges g ≤ i32Max then
    match max_number_of_edges n with
    | .ok m => .ok (f32div (countEdges g) m)
    | .error e => .error e
  else .error .arithOverflow

/-- Embeds `Graph::clear`: the nested loop sets every cell false; the
capacity n is untouched (it is a type parameter).  The loop indices stay
below SIZE, so clear cannot fail. -/
def clear (_g : Graph n) : Graph n := ⟨fun _ _ => false⟩

end Graph

/-- Embeds `pub struct WeightedGraph<const SIZE: usize>
{ data: [[Option<f32>; SIZE]; SIZE] }`: the row-major matrix of optional
weights; a present value at (i, j) is an edge from i to j carrying that
weight.  Weight values are only stored and read back, so they are
modelled as rationals. -/
structure WeightedGraph (n : ℕ) where
  data : Fin n → Fin n → Option ℚ

instance {n : ℕ} : DecidableEq (WeightedGraph n) := fun g h =>
  decidable_of_iff (g.data = h.data) (by cases g; cases h; simp)

namespace WeightedGraph

variable {n : ℕ}

/-- Embeds `WeightedGraph::new`: every cell None. -/
def new (n : ℕ) : WeightedGraph n := ⟨fun _ _ => none⟩

/-- Embeds `WeightedGraph::add_edge`: `self.data[i][j] = Some(weight)`,
panicking iff i or j is out of range.  Overwrites any prior weight. -/
def add_edge (g : WeightedGraph n) (i j : ℕ) (w : ℚ) :
    Except Err (WeightedGraph n) :=
  if h : i < n ∧ j < n then
    .ok ⟨fun a b => if a = ⟨i, h.1⟩ ∧ b = ⟨j, h.2⟩ then some w else g.data a b⟩
  else .error .indexOutOfRange

/-- Embeds `WeightedGraph::add_edge_undirected`: sets both (i, j) and
(j, i) to `Some(weight)`. -/
def add_edge_undirected (g : WeightedGraph n) (i j : ℕ) (w : ℚ) :
    Except Err (WeightedGraph n) :=
  if h : i < n ∧ j < n then
    .ok ⟨fun a b =>
      if (a = ⟨i, h.1⟩ ∧ b = ⟨j, h.2⟩) ∨ (a = ⟨j, h.2⟩ ∧ b = ⟨i, h.1⟩) then some w
      else g.data a b⟩
  else .error .indexOutOfRange

/-- Embeds `WeightedGraph::remove_edge`: `self.data[i][j] = None`. -/
def remove_edge (g : WeightedGraph n) (i j : ℕ) :
    Except Err (WeightedGraph n) :=
  if h : i < n ∧ j < n then
    .ok ⟨fun a b => if a = ⟨i, h.1⟩ ∧ b = ⟨j, h.2⟩ then none else g.data a b⟩
  else .error .indexOutOfRange

/-- Embeds `WeightedGraph::remove_edge_undirected`: clears both (i, j)
and (j, i). -/
def remove_edge_undirected (g : WeightedGraph n) (i j : ℕ) :
    Except Err (WeightedGraph n) :=
  if h : i < n ∧ j < n then
    .ok ⟨fun a b =>
      if (a = ⟨i, h.1⟩ ∧ b = ⟨j, h.2⟩) ∨ (a = ⟨j, h.2⟩ ∧ b = ⟨i, h.1⟩) then none
      else g.data a b⟩
  else .error .indexOutOfRange

/-- Embeds `WeightedGraph::get_edge`: reads `self.data[i][j]`. -/
def get_edge (g : WeightedGraph n) (i j : ℕ) : Except Err (Option ℚ) :=
  if h : i < n ∧ j < n then .ok (g.data ⟨i, h.1⟩ ⟨j, h.2⟩)
  else .error .indexOutOfRange

/-- Embeds `WeightedGraph::has_edge`: `self.data[i][j].is_some()`. -/
def has_edge (g : WeightedGraph n) (i j : ℕ) : Except Err Bool :=
  if h : i < n ∧ j < n then .ok (g.data ⟨i, h.1⟩ ⟨j, h.2⟩).isSome
  else .error .indexOutOfRange

/-- Embeds `WeightedGraph::get_edges`: returns row `vertex`
(`&self.data[vertex]`). -/
def get_edges (g : WeightedGraph n) (v : ℕ) :
    Except Err (Fin n → Option ℚ) :=
  if h : v < n then .ok (fun b => g.data ⟨v, h⟩ b) else .error .indexOutOfRange

/-- Embeds `WeightedGraph::get_inverse_edges`: same loop as the
unweighted version, starting from an all-None array; for SIZE = 0 the
loop never runs and the initial (empty) array is returned without any
index check. -/
def get_inverse_edges (g : WeightedGraph n) (v : ℕ) :
    Except Err (Fin n → Option ℚ) :=
  if h : v < n then .ok (fun a => g.data a ⟨v, h⟩)
  else if n = 0 then .ok (fun _ => none)
  else .error .indexOutOfRange

/-- Embeds `WeightedGraph::max_number_of_edges`: `SIZE * (SIZE - 1)` on
usize, textually identical to the unweighted version; the subtraction
underflows at SIZE = 0. -/
def max_number_of_edges (n : ℕ) : Except Err ℕ :=
  if n = 0 then .error .arithOverflow else .ok (n * (n - 1))

/-- The edge count computed by the nested loop in
`WeightedGraph::density`: the number of Some cells over all n * n
positions, diagonal included. -/
def countEdges (g : WeightedGraph n) : ℕ :=
  ∑ a : Fin n, ∑ b : Fin n, if (g.data a b).isSome then 1 else 0

/-- Embeds `WeightedGraph::density`: count the Some cells with an i32
counter, then divide by `max_number_of_edges()` in f32. -/
def density (g : WeightedGraph n) : Except Err F32 :=
  if countEdges g ≤ i32Max then
    match max_number_of_edges n with
    | .ok m => .ok (f32div (countEdges g) m)
    | .error e => .error e
  else .error .arithOverflow

/-- Embeds `WeightedGraph::clear`: the nested loop sets every cell None. -/
def clear (_g : WeightedGraph n) : WeightedGraph n := ⟨fun _ _ => none⟩

/-- The presence projection from WeightedGraph to Graph: each cell maps
to whether it holds a weight.  Used to state that the two variants are
parallel implementations of one shape. -/
def toGraph (g : WeightedGraph n) : Graph n := ⟨fun a b => (g.data a b).isSome⟩

end WeightedGraph

/-- A fallible result obeys the bounds-check discipline for the validity
condition c when it is an IndexOutOfRange error exactly if c fails and
succeeds exactly if c holds; the two together leave no other failure
mode. -/
def checksIdx {α : Type} (r : Except Err α) (c : Prop) : Prop :=
  (r = Except.error Err.indexOutOfRange ↔ ¬ c) ∧ (r.isOk = true ↔ c)

/-!
Theorems.  Helper lemmas come first; each claim then gets exactly one
theorem (with its counterexample and witness where required).
-/

theorem f32div_eq_div {a b : ℕ} (hb : b ≠ 0) :
    f32div a b = F32.fin ((a : ℚ) / (b : ℚ)) := by
  simp [f32div, hb, Rat.mkRat_eq_div]

namespace Graph

variable {n : ℕ}

theorem add_edge_checks (g : Graph n) (i j : ℕ) :
    checksIdx (g.add_edge i j) (i < n ∧ j < n) := by
  unfold checksIdx add_edge
  by_cases h : i < n ∧ j < n <;> simp [h, Except.isOk, Except.toBool]

theorem add_edge_undirected_checks (g : Graph n) (i j : ℕ) :
    checksIdx (g.add_edge_undirected i j) (i < n ∧ j < n) := by
  unfold checksIdx add_edge_undirected
  by_cases h : i < n ∧ j < n <;> simp [h, Except.isOk, Except.toBool]

theorem remove_edge_checks (g : Graph n) (i j : ℕ) :
    checksIdx (g.remove_edge i j) (i < n ∧ j < n) := by
  unfold checksIdx remove_edge
  by_cases h : i < n ∧ j < n <;> simp [h, Except.isOk, Except.toBool]

theorem remove_edge_undirected_checks (g : Graph n) (i j : ℕ) :
    checksIdx (g.remove_edge_undirected i j) (i < n ∧ j < n) := by
  unfold checksIdx remove_edge_undirected
  by_cases h : i < n ∧ j < n <;> simp [h, Except.isOk, Except.toBool]

theorem has_edge_checks (g : Graph n) (i j : ℕ) :
    checksIdx (g.has_edge i j) (i < n ∧ j < n) := by
  unfold checksIdx has_edge
  by_cases h : i < n ∧ j < n <;> simp [h, Except.isOk, Except.toBool]

theorem get_edges_checks (g : Graph n) (v : ℕ) :
    checksIdx (g.get_edges v) (v < n) := by
  unfold checksIdx get_edges
  by_cases h : v < n <;> simp [h, Except.isOk, Except.toBool]

theorem get_inverse_edges_checks (hn : 0 < n) (g : Graph n) (v : ℕ) :
    checksIdx (g.get_inverse_edges v) (v < n) := by
  unfold checksIdx get_inverse_edges
  have hne : n ≠ 0 := by omega
  by_cases h : v < n <;> simp [h, hne, Except.isOk, Except.toBool]

theorem max_number_of_edges_ok (hn : 0 < n) :
    max_number_of_edges n = .ok (n * (n - 1)) := by
  unfold max_number_of_edges
  simp [Nat.pos_iff_ne_zero.mp hn]

theorem density_ok (hn : 0 < n) (g : Graph n) (hc : countEdges g ≤ i32Max) :
    g.density = .ok (f32div (countEdges g) (n * (n - 1))) := by
  unfold density
  rw [max_number_of_edges_ok hn]
  simp [hc]

end Graph

namespace WeightedGraph

variable {n : ℕ}

theorem w_add_edge_checks (g : WeightedGraph n) (i j : ℕ) (w : ℚ) :
    checksIdx (g.add_edge i j w) (i < n ∧ j < n) := by
  unfold checksIdx add_edge
  by_cases h : i < n ∧ j < n <;> simp [h, Except.isOk, Except.toBool]

theorem w_add_edge_undirected_checks (g : WeightedGraph n) (i j : ℕ) (w : ℚ) :
    checksIdx (g.add_edge_undirected i j w) (i < n ∧ j < n) := by
  unfold checksIdx add_edge_undirected
  by_cases h : i < n ∧ j < n <;> simp [h, Except.isOk, Except.toBool]

theorem w_remove_edge_checks (g : WeightedGraph n) (i j : ℕ) :
    checksIdx (g.remove_edge i j) (i < n ∧ j < n) := by
  unfold checksIdx remove_edge
  by_cases h : i < n ∧ j < n <;> simp [h, Except.isOk, Except.toBool]

theorem w_remove_edge_undirected_checks (g : WeightedGraph n) (i j : ℕ) :
    checksIdx (g.remove_edge_undirected i j) (i < n ∧ j < n) := by
  unfold checksIdx remove_edge_undirected
  by_cases h : i < n ∧ j < n <;> simp [h, Except.isOk, Except.toBool]

theorem w_get_edge_checks (g : WeightedGraph n) (i j : ℕ) :
    checksIdx (g.get_edge i j) (i < n ∧ j < n) := by
  unfold checksIdx get_edge
  by_cases h : i < n ∧ j < n <;> simp [h, Except.isOk, Except.toBool]

theorem w_has_edge_checks (g : WeightedGraph n) (i j : ℕ) :
    checksIdx (g.has_edge i j) (i < n ∧ j < n) := by
  unfold checksIdx has_edge
  by_cases h : i < n ∧ j < n <;> simp [h, Except.isOk, Except.toBool]

theorem w_get_edges_checks (g : WeightedGraph n) (v : ℕ) :
    checksIdx (g.get_edges v) (v < n) := by
  unfold checksIdx get_edges
  by_cases h : v < n <;> simp [h, Except.isOk, Except.toBool]

theorem w_get_inverse_edges_checks (hn : 0 < n) (g : WeightedGraph n) (v : ℕ) :
    checksIdx (g.get_inverse_edges v) (v < n) := by
  unfold checksIdx get_inverse_edges
  have hne : n ≠ 0 := by omega
  by_cases h : v < n <;> simp [h, hne, Except.isOk, Except.toBool]

theorem w_max_number_of_edges_ok (hn : 0 < n) :
    max_number_of_edges n = .ok (n * (n - 1)) := by
  unfold max_number_of_edges
  simp [Nat.pos_iff_ne_zero.mp hn]

theorem w_density_ok (hn : 0 < n) (g : WeightedGraph n)
    (hc : countEdges g ≤ i32Max) :
    g.density = .ok (f32div (countEdges g) (n * (n - 1))) := by
  unfold density
  rw [w_max_number_of_edges_ok hn]
  simp [hc]

end WeightedGraph

/-- C1, counterexample at N = 0.  The claim says get_inverse_edges fails
with IndexOutOfRange whenever its vertex argument is not in [0, N); with
N = 0 the vertex 0 is out of range, yet the copy loop never runs, so the
call succeeds with the empty row instead of failing.  (At N = 0 the claim
also fails for max_number_of_edges, which underflows; see the C2
counterexample.) -/
theorem C1_counterexample :
    ¬ (0 < 0) ∧
    (Graph.get_inverse_edges (Graph.new 0) 0).isOk = true ∧
    Graph.get_inverse_edges (Graph.new 0) 0 ≠ Except.error Err.indexOutOfRange ∧
    (WeightedGraph.get_inverse_edges (WeightedGraph.new 0) 0).isOk = true := by
  decide

/-- C1, amended to capacities N ≥ 1: every indexed operation of both
variants fails with IndexOutOfRange exactly when one of its index
arguments is not in [0, N) and succeeds otherwise, so IndexOutOfRange is
their only failure mode; max_number_of_edges succeeds (returning
N·(N−1)), and density succeeds whenever its i32 edge counter does not
overflow, i.e. whenever at most 2^31 − 1 cells are set (guaranteed for
N ≤ 46340); new and clear are embedded as total functions because the
source loops cannot fail.  Indices are compared against N exactly, never
wrapped, clamped or truncated. -/
theorem C1_bounds_checked (n : ℕ) (g : Graph n) (wg : WeightedGraph n)
    (i j : ℕ) (w : ℚ) (hn : 0 < n)
    (hg : Graph.countEdges g ≤ i32Max)
    (hwg : WeightedGraph.countEdges wg ≤ i32Max) :
    checksIdx (g.add_edge i j) (i < n ∧ j < n) ∧
    checksIdx (g.add_edge_undirected i j) (i < n ∧ j < n) ∧
    checksIdx (g.remove_edge i j) (i < n ∧ j < n) ∧
    checksIdx (g.remove_edge_undirected i j) (i < n ∧ j < n) ∧
    checksIdx (g.has_edge i j) (i < n ∧ j < n) ∧
    checksIdx (g.get_edges i) (i < n) ∧
    checksIdx (g.get_inverse_edges i) (i < n) ∧
    checksIdx (wg.add_edge i j w) (i < n ∧ j < n) ∧
    checksIdx (wg.add_edge_undirected i j w) (i < n ∧ j < n) ∧
    checksIdx (wg.remove_edge i j) (i < n ∧ j < n) ∧
    checksIdx (wg.remove_edge_undirected i j) (i < n ∧ j < n) ∧
    checksIdx (wg.get_edge i j) (i < n ∧ j < n) ∧
    checksIdx (wg.has_edge i j) (i < n ∧ j < n) ∧
    checksIdx (wg.get_edges i) (i < n) ∧
    checksIdx (wg.get_inverse_edges i) (i < n) ∧
    Graph.max_number_of_edges n = .ok (n * (n - 1)) ∧
    WeightedGraph.max_number_of_edges n = .ok (n * (n - 1)) ∧
    g.density = .ok (f32div (Graph.countEdges g) (n * (n - 1))) ∧
    wg.density = .ok (f32div (WeightedGraph.countEdges wg) (n * (n - 1))) :=
  ⟨Graph.add_edge_checks g i j,
   Graph.add_edge_undirected_checks g i j,
   Graph.remove_edge_checks g i j,
   Graph.remove_edge_undirected_checks g i j,
   Graph.has_edge_checks g i j,
   Graph.get_edges_checks g i,
   Graph.get_inverse_edges_checks hn g i,
   WeightedGraph.w_add_edge_checks wg i j w,
   WeightedGraph.w_add_edge_undirected_checks wg i j w,
   WeightedGraph.w_remove_edge_checks wg i j,
   WeightedGraph.w_remove_edge_undirected_checks wg i j,
   WeightedGraph.w_get_edge_checks wg i j,
   WeightedGraph.w_has_edge_checks wg i j,
   WeightedGraph.w_get_edges_checks wg i,
   WeightedGraph.w_get_inverse_edges_checks hn wg i,
   Graph.max_number_of_edges_ok hn,
   WeightedGraph.w_max_number_of_edges_ok hn,
   Graph.density_ok hn g hg,
   WeightedGraph.w_density_ok hn wg hwg⟩

/-- C1 witness: the amended theorem instantiated at N = 1 on the empty
graphs with indices 0 and 2 and weight 0. -/
theorem C1_witness :
    checksIdx ((Graph.new 1).add_edge 0 2) (0 < 1 ∧ 2 < 1) ∧
    checksIdx ((Graph.new 1).add_edge_undirected 0 2) (0 < 1 ∧ 2 < 1) ∧
    checksIdx ((Graph.new 1).remove_edge 0 2) (0 < 1 ∧ 2 < 1) ∧
    checksIdx ((Graph.new 1).remove_edge_undirected 0 2) (0 < 1 ∧ 2 < 1) ∧
    checksIdx ((Graph.new 1).has_edge 0 2) (0 < 1 ∧ 2 < 1) ∧
    checksIdx ((Graph.new 1).get_edges 0) (0 < 1) ∧
    checksIdx ((Graph.new 1).get_inverse_edges 0) (0 < 1) ∧
    checksIdx ((WeightedGraph.new 1).add_edge 0 2 0) (0 < 1 ∧ 2 < 1) ∧
    checksIdx ((WeightedGraph.new 1).add_edge_undirected 0 2 0) (0 < 1 ∧ 2 < 1) ∧
    checksIdx ((WeightedGraph.new 1).remove_edge 0 2) (0 < 1 ∧ 2 < 1) ∧
    checksIdx ((WeightedGraph.new 1).remove_edge_undirected 0 2) (0 < 1 ∧ 2 < 1) ∧
    checksIdx ((WeightedGraph.new 1).get_edge 0 2) (0 < 1 ∧ 2 < 1) ∧
    checksIdx ((WeightedGraph.new 1).has_edge 0 2) (0 < 1 ∧ 2 < 1) ∧
    checksIdx ((WeightedGraph.new 1).get_edges 0) (0 < 1) ∧
    checksIdx ((WeightedGraph.new 1).get_inverse_edges 0) (0 < 1) ∧
    Graph.max_number_of_edges 1 = .ok (1 * (1 - 1)) ∧
    WeightedGraph.max_number_of_edges 1 = .ok (1 * (1 - 1)) ∧
    (Graph.new 1).density = .ok (f32div (Graph.countEdges (Graph.new 1)) (1 * (1 - 1))) ∧
    (WeightedGraph.new 1).density =
      .ok (f32div (WeightedGraph.countEdges (WeightedGraph.new 1)) (1 * (1 - 1))) :=
  C1_bounds_checked 1 (Graph.new 1) (WeightedGraph.new 1) 0 2 0
    (by decide) (by decide) (by decide)

/-- C2, counterexample at N = 0.  The claim says max_number_of_edges
returns N·(N−1) without failing for every N including N = 0; there the
usize subtraction SIZE − 1 underflows (a const-evaluation error and a
debug-build panic), so the call fails instead of returning 0. -/
theorem C2_counterexample :
    Graph.max_number_of_edges 0 = .error .arithOverflow ∧
    WeightedGraph.max_number_of_edges 0 = .error .arithOverflow ∧
    Graph.max_number_of_edges 0 ≠ .ok 0 := by
  decide

/-- C2, amended to N ≥ 1: for both variants max_number_of_edges returns
exactly N·(N−1) without failing (so 6 for N = 3 and 0 for N = 1); at
N = 0 it fails on the underflowing subtraction. -/
theorem C2_max_edges (n : ℕ) (hn : 0 < n) :
    Graph.max_number_of_edges n = .ok (n * (n - 1)) ∧
    WeightedGraph.max_number_of_edges n = .ok (n * (n - 1)) :=
  ⟨Graph.max_number_of_edges_ok hn, WeightedGraph.w_max_number_of_edges_ok hn⟩

/-- C2 witness: the amended theorem at N = 3 (value 6) and N = 1
(value 0). -/
theorem C2_witness :
    (Graph.max_number_of_edges 3 = .ok (3 * (3 - 1)) ∧
     WeightedGraph.max_number_of_edges 3 = .ok (3 * (3 - 1))) ∧
    (Graph.max_number_of_edges 1 = .ok (1 * (1 - 1)) ∧
     WeightedGraph.max_number_of_edges 1 = .ok (1 * (1 - 1))) :=
  ⟨C2_max_edges 3 (by decide), C2_max_edges 1 (by decide)⟩

theorem Graph.countEdges_clear {n : ℕ} (g : Graph n) :
    Graph.countEdges (Graph.clear g) = 0 := by
  simp [Graph.countEdges, Graph.clear]

theorem WeightedGraph.w_countEdges_clear {n : ℕ} (g : WeightedGraph n) :
    WeightedGraph.countEdges (WeightedGraph.clear g) = 0 := by
  simp [WeightedGraph.countEdges, WeightedGraph.clear]

theorem f32div_zero_of_pos {m : ℕ} (hm : m ≠ 0) : f32div 0 m = F32.fin 0 := by
  rw [f32div_eq_div hm]
  norm_num

/-- C3, counterexample at N = 1.  The claim says density returns exactly
0.0 right after clear for every N ≥ 1; at N = 1 the denominator
N·(N−1) is 0, the f32 division is 0.0/0.0, and density returns NaN, not
0.0.  The state is reachable: it is clear of the fresh graph. -/
theorem C3_counterexample :
    Graph.density (Graph.clear (Graph.new 1)) = .ok F32.nan ∧
    Graph.density (Graph.clear (Graph.new 1)) ≠ .ok (F32.fin 0) ∧
    WeightedGraph.density (WeightedGraph.clear (WeightedGraph.new 1)) = .ok F32.nan := by
  decide

/-- C3, amended: for both variants and any state, immediately after
clear every in-range has_edge returns false and the capacity is unchanged
(the capacity is a type parameter, untouched by construction); density
returns exactly 0.0 for every N ≥ 2, while at N = 1 it returns NaN
(0.0/0.0). -/
theorem C3_clear_resets (n : ℕ) (g : Graph n) (wg : WeightedGraph n)
    (i j : ℕ) (hn : 0 < n) (hi : i < n) (hj : j < n) :
    (Graph.clear g).has_edge i j = .ok false ∧
    (WeightedGraph.clear wg).has_edge i j = .ok false ∧
    (2 ≤ n →
      (Graph.clear g).density = .ok (F32.fin 0) ∧
      (WeightedGraph.clear wg).density = .ok (F32.fin 0)) ∧
    (n = 1 →
      (Graph.clear g).density = .ok F32.nan ∧
      (WeightedGraph.clear wg).density = .ok F32.nan) := by
  refine ⟨?_, ?_, ?_, ?_⟩
  · simp [Graph.clear, Graph.has_edge, hi, hj]
  · simp [WeightedGraph.clear, WeightedGraph.has_edge, hi, hj]
  · intro h2
    have hm : n * (n - 1) ≠ 0 := by
      have : 1 ≤ n - 1 := by omega
      positivity
    constructor
    · rw [Graph.density_ok hn (Graph.clear g) (by simp [Graph.countEdges_clear]),
        Graph.countEdges_clear, f32div_zero_of_pos hm]
    · rw [WeightedGraph.w_density_ok hn (WeightedGraph.clear wg)
        (by simp [WeightedGraph.w_countEdges_clear]),
        WeightedGraph.w_countEdges_clear, f32div_zero_of_pos hm]
  · rintro rfl
    constructor
    · rw [Graph.density_ok hn (Graph.clear g) (by simp [Graph.countEdges_clear]),
        Graph.countEdges_clear]
      rfl
    · rw [WeightedGraph.w_density_ok hn (WeightedGraph.clear wg)
        (by simp [WeightedGraph.w_countEdges_clear]),
        WeightedGraph.w_countEdges_clear]
      rfl

/-- C3 witness: the amended theorem at N = 2 on the empty graphs with
indices 0 and 1. -/
theorem C3_witness :
    (Graph.clear (Graph.new 2)).has_edge 0 1 = .ok false ∧
    (WeightedGraph.clear (WeightedGraph.new 2)).has_edge 0 1 = .ok false ∧
    (2 ≤ 2 →
      (Graph.clear (Graph.new 2)).density = .ok (F32.fin 0) ∧
      (WeightedGraph.clear (WeightedGraph.new 2)).density = .ok (F32.fin 0)) ∧
    (2 = 1 →
      (Graph.clear (Graph.new 2)).density = .ok F32.nan ∧
      (WeightedGraph.clear (WeightedGraph.new 2)).density = .ok F32.nan) :=
  C3_clear_resets 2 (Graph.new 2) (WeightedGraph.new 2) 0 1
    (by decide) (by decide) (by decide)

theorem Graph.countEdges_eq_card {n : ℕ} (g : Graph n) :
    Graph.countEdges g =
      (Finset.univ.filter (fun p : Fin n × Fin n => g.data p.1 p.2)).card := by
  rw [Finset.card_filter, Fintype.sum_prod_type]
  rfl

theorem WeightedGraph.w_countEdges_eq_card {n : ℕ} (g : WeightedGraph n) :
    WeightedGraph.countEdges g =
      (Finset.univ.filter (fun p : Fin n × Fin n => (g.data p.1 p.2).isSome)).card := by
  rw [Finset.card_filter, Fintype.sum_prod_type]
  rfl

/-- C4: for both variants the density numerator is the number of set
cells among all N² matrix positions — the filtered count over every
ordered pair, the N diagonal (self-loop) cells included — and density
divides that count by max_number_of_edges() = N·(N−1) (as long as the
computation does not fail: N ≥ 1 and the count fits the i32 counter).
Concretely, on the unweighted variant with N = 3, adding the three
undirected edges 0-1, 0-2, 1-2 makes density exactly 1.0; and a graph
whose only set cell is the self-loop (0,0) at N = 2 reports density
1/2 > 0 even though it has no non-loop edge, because the diagonal is
counted in the numerator but excluded from the denominator. -/
theorem C4_density_counts (n : ℕ) (g : Graph n) (wg : WeightedGraph n)
    (hn : 0 < n) (hg : Graph.countEdges g ≤ i32Max)
    (hwg : WeightedGraph.countEdges wg ≤ i32Max) :
    Graph.countEdges g =
      (Finset.univ.filter (fun p : Fin n × Fin n => g.data p.1 p.2)).card ∧
    WeightedGraph.countEdges wg =
      (Finset.univ.filter (fun p : Fin n × Fin n => (wg.data p.1 p.2).isSome)).card ∧
    g.density = .ok (f32div (Graph.countEdges g) (n * (n - 1))) ∧
    wg.density = .ok (f32div (WeightedGraph.countEdges wg) (n * (n - 1))) ∧
    ((((Graph.new 3).add_edge_undirected 0 1).bind
        (fun h => h.add_edge_undirected 0 2)).bind
        (fun h => h.add_edge_undirected 1 2)).bind Graph.density =
      .ok (F32.fin 1) ∧
    ((Graph.new 2).add_edge 0 0).bind Graph.density = .ok (F32.fin (mkRat 1 2)) :=
  ⟨Graph.countEdges_eq_card g, WeightedGraph.w_countEdges_eq_card wg,
   Graph.density_ok hn g hg, WeightedGraph.w_density_ok hn wg hwg,
   by decide, by decide⟩

/-- C4 witness: the theorem at N = 3 on the empty graphs (the concrete
scenarios in the conclusion are closed and independent of the
instantiation). -/
theorem C4_witness :
    Graph.countEdges (Graph.new 3) =
      (Finset.univ.filter
        (fun p : Fin 3 × Fin 3 => (Graph.new 3).data p.1 p.2)).card ∧
    WeightedGraph.countEdges (WeightedGraph.new 3) =
      (Finset.univ.filter
        (fun p : Fin 3 × Fin 3 => ((WeightedGraph.new 3).data p.1 p.2).isSome)).card ∧
    (Graph.new 3).density =
      .ok (f32div (Graph.countEdges (Graph.new 3)) (3 * (3 - 1))) ∧
    (WeightedGraph.new 3).density =
      .ok (f32div (WeightedGraph.countEdges (WeightedGraph.new 3)) (3 * (3 - 1))) ∧
    ((((Graph.new 3).add_edge_undirected 0 1).bind
        (fun h => h.add_edge_undirected 0 2)).bind
        (fun h => h.add_edge_undirected 1 2)).bind Graph.density =
      .ok (F32.fin 1) ∧
    ((Graph.new 2).add_edge 0 0).bind Graph.density = .ok (F32.fin (mkRat 1 2)) :=
  C4_density_counts 3 (Graph.new 3) (WeightedGraph.new 3)
    (by decide) (by decide) (by decide)

/-- C5: for any state and valid vertices v and u, get_edges v indexed at
u is the cell (v, u) — row v — and get_inverse_edges v indexed at u is
the cell (u, v) — column v; on the unweighted variant these agree with
has_edge, on the weighted variant with get_edge. -/
theorem C5_rows_and_columns (n : ℕ) (g : Graph n) (wg : WeightedGraph n)
    (v u : ℕ) (hv : v < n) (hu : u < n) :
    (g.get_inverse_edges v).map (fun r => r ⟨u, hu⟩) = g.has_edge u v ∧
    (g.get_edges v).map (fun r => r ⟨u, hu⟩) = g.has_edge v u ∧
    (wg.get_inverse_edges v).map (fun r => r ⟨u, hu⟩) = wg.get_edge u v ∧
    (wg.get_edges v).map (fun r => r ⟨u, hu⟩) = wg.get_edge v u := by
  refine ⟨?_, ?_, ?_, ?_⟩ <;>
    simp [Graph.get_inverse_edges, Graph.get_edges, Graph.has_edge,
      WeightedGraph.get_inverse_edges, WeightedGraph.get_edges,
      WeightedGraph.get_edge, hv, hu, Except.map]

/-- C5 witness: the theorem at N = 2, v = 1, u = 0 on the empty graphs. -/
theorem C5_witness :
    ((Graph.new 2).get_inverse_edges 1).map (fun r => r ⟨0, by decide⟩) =
      (Graph.new 2).has_edge 0 1 ∧
    ((Graph.new 2).get_edges 1).map (fun r => r ⟨0, by decide⟩) =
      (Graph.new 2).has_edge 1 0 ∧
    ((WeightedGraph.new 2).get_inverse_edges 1).map (fun r => r ⟨0, by decide⟩) =
      (WeightedGraph.new 2).get_edge 0 1 ∧
    ((WeightedGraph.new 2).get_edges 1).map (fun r => r ⟨0, by decide⟩) =
      (WeightedGraph.new 2).get_edge 1 0 :=
  C5_rows_and_columns 2 (Graph.new 2) (WeightedGraph.new 2) 1 0
    (by decide) (by decide)

/-- C6: on the weighted variant with valid i and j, get_edge is absent
on a fresh graph; after add_edge i j w — from any prior state, replacing
any previously stored weight — get_edge i j returns exactly w and
has_edge i j returns true; nothing in the presence check inspects the
weight value, so this includes w = 0. -/
theorem C6_weight_storage (n : ℕ) (wg : WeightedGraph n) (i j : ℕ) (w : ℚ)
    (hi : i < n) (hj : j < n) :
    (WeightedGraph.new n).get_edge i j = .ok none ∧
    (wg.add_edge i j w).bind (fun h => h.get_edge i j) = .ok (some w) ∧
    (wg.add_edge i j w).bind (fun h => h.has_edge i j) = .ok true := by
  refine ⟨?_, ?_, ?_⟩ <;>
    simp [WeightedGraph.new, WeightedGraph.get_edge, WeightedGraph.add_edge,
      WeightedGraph.has_edge, hi, hj, Except.bind]

/-- C6 witness: the theorem at N = 1 with i = j = 0 and weight 0 — the
zero-weight case the claim singles out — starting from a graph that
already stores weight 7 at (0,0), which the add replaces. -/
theorem C6_witness :
    (WeightedGraph.new 1).get_edge 0 0 = .ok none ∧
    ((⟨fun _ _ => some 7⟩ : WeightedGraph 1).add_edge 0 0 0).bind
      (fun h => h.get_edge 0 0) = .ok (some 0) ∧
    ((⟨fun _ _ => some 7⟩ : WeightedGraph 1).add_edge 0 0 0).bind
      (fun h => h.has_edge 0 0) = .ok true :=
  C6_weight_storage 1 ⟨fun _ _ => some 7⟩ 0 0 0 (by decide) (by decide)

/-- C7: for valid i ≠ j, add_edge i j makes has_edge i j true while
has_edge j i and every other cell — queried at any indices other than
(i, j), valid or not — behave exactly as before; add_edge and
remove_edge are idempotent, the second identical call producing the very
same state. -/
theorem C7_add_edge_exact (n : ℕ) (g : Graph n) (i j : ℕ)
    (hi : i < n) (hj : j < n) (hij : i ≠ j) :
    (g.add_edge i j).bind (fun h => h.has_edge i j) = .ok true ∧
    (g.add_edge i j).bind (fun h => h.has_edge j i) = g.has_edge j i ∧
    (∀ a b : ℕ, ¬(a = i ∧ b = j) →
      (g.add_edge i j).bind (fun h => h.has_edge a b) = g.has_edge a b) ∧
    (g.add_edge i j).bind (fun h => h.add_edge i j) = g.add_edge i j ∧
    (g.remove_edge i j).bind (fun h => h.remove_edge i j) = g.remove_edge i j := by
  have frame : ∀ a b : ℕ, ¬(a = i ∧ b = j) →
      (g.add_edge i j).bind (fun h => h.has_edge a b) = g.has_edge a b := by
    intro a b hab
    by_cases hv : a < n ∧ b < n
    · simp [Graph.add_edge, Graph.has_edge, hi, hj, hv, Except.bind,
        Fin.mk.injEq, hab]
    · simp [Graph.add_edge, Graph.has_edge, hi, hj, hv, Except.bind]
  refine ⟨?_, frame j i (fun hc => hij (hc.1.symm ▸ rfl)), frame, ?_, ?_⟩
  · simp [Graph.add_edge, Graph.has_edge, hi, hj, Except.bind]
  · simp only [Graph.add_edge, dif_pos (And.intro hi hj), Except.bind]
    refine congrArg Except.ok (congrArg Graph.mk
      (funext fun a => funext fun b => ?_))
    by_cases hc : a = (⟨i, hi⟩ : Fin n) ∧ b = (⟨j, hj⟩ : Fin n) <;> simp [hc]
  · simp only [Graph.remove_edge, dif_pos (And.intro hi hj), Except.bind]
    refine congrArg Except.ok (congrArg Graph.mk
      (funext fun a => funext fun b => ?_))
    by_cases hc : a = (⟨i, hi⟩ : Fin n) ∧ b = (⟨j, hj⟩ : Fin n) <;> simp [hc]

/-- C7 witness: the theorem at N = 2, i = 0, j = 1 on the graph whose
only edge is (1, 0), which the add must leave untouched. -/
theorem C7_witness :
    ((⟨fun a b => a = 1 ∧ b = 0⟩ : Graph 2).add_edge 0 1).bind
      (fun h => h.has_edge 0 1) = .ok true ∧
    ((⟨fun a b => a = 1 ∧ b = 0⟩ : Graph 2).add_edge 0 1).bind
      (fun h => h.has_edge 1 0) =
      (⟨fun a b => a = 1 ∧ b = 0⟩ : Graph 2).has_edge 1 0 ∧
    (∀ a b : ℕ, ¬(a = 0 ∧ b = 1) →
      ((⟨fun a b => a = 1 ∧ b = 0⟩ : Graph 2).add_edge 0 1).bind
        (fun h => h.has_edge a b) =
        (⟨fun a b => a = 1 ∧ b = 0⟩ : Graph 2).has_edge a b) ∧
    ((⟨fun a b => a = 1 ∧ b = 0⟩ : Graph 2).add_edge 0 1).bind
      (fun h => h.add_edge 0 1) =
      (⟨fun a b => a = 1 ∧ b = 0⟩ : Graph 2).add_edge 0 1 ∧
    ((⟨fun a b => a = 1 ∧ b = 0⟩ : Graph 2).remove_edge 0 1).bind
      (fun h => h.remove_edge 0 1) =
      (⟨fun a b => a = 1 ∧ b = 0⟩ : Graph 2).remove_edge 0 1 :=
  C7_add_edge_exact 2 ⟨fun a b => a = 1 ∧ b = 0⟩ 0 1
    (by decide) (by decide) (by decide)

/-- C8: for valid i, j (i = j included), add_edge_undirected equals the
two directed calls add_edge i j then add_edge j i, afterwards has_edge
holds in both directions, and on the weighted variant both cells hold
the same weight w. -/
theorem C8_undirected_both (n : ℕ) (g : Graph n) (wg : WeightedGraph n)
    (i j : ℕ) (w : ℚ) (hi : i < n) (hj : j < n) :
    (g.add_edge i j).bind (fun h => h.add_edge j i) = g.add_edge_undirected i j ∧
    (wg.add_edge i j w).bind (fun h => h.add_edge j i w) =
      wg.add_edge_undirected i j w ∧
    (g.add_edge_undirected i j).bind (fun h => h.has_edge i j) = .ok true ∧
    (g.add_edge_undirected i j).bind (fun h => h.has_edge j i) = .ok true ∧
    (wg.add_edge_undirected i j w).bind (fun h => h.has_edge i j) = .ok true ∧
    (wg.add_edge_undirected i j w).bind (fun h => h.has_edge j i) = .ok true ∧
    (wg.add_edge_undirected i j w).bind (fun h => h.get_edge i j) = .ok (some w) ∧
    (wg.add_edge_undirected i j w).bind (fun h => h.get_edge j i) = .ok (some w) := by
  refine ⟨?_, ?_, ?_, ?_, ?_, ?_, ?_, ?_⟩
  · simp only [Graph.add_edge, Graph.add_edge_undirected,
      dif_pos (And.intro hi hj), dif_pos (And.intro hj hi), Except.bind]
    refine congrArg Except.ok (congrArg Graph.mk
      (funext fun a => funext fun b => ?_))
    by_cases h1 : a = (⟨i, hi⟩ : Fin n) ∧ b = (⟨j, hj⟩ : Fin n) <;>
      by_cases h2 : a = (⟨j, hj⟩ : Fin n) ∧ b = (⟨i, hi⟩ : Fin n) <;>
      simp [h1, h2]
  · simp only [WeightedGraph.add_edge, WeightedGraph.add_edge_undirected,
      dif_pos (And.intro hi hj), dif_pos (And.intro hj hi), Except.bind]
    refine congrArg Except.ok (congrArg WeightedGraph.mk
      (funext fun a => funext fun b => ?_))
    by_cases h1 : a = (⟨i, hi⟩ : Fin n) ∧ b = (⟨j, hj⟩ : Fin n) <;>
      by_cases h2 : a = (⟨j, hj⟩ : Fin n) ∧ b = (⟨i, hi⟩ : Fin n) <;>
      simp [h1, h2]
  · simp [Graph.add_edge_undirected, Graph.has_edge, hi, hj, Except.bind]
  · simp [Graph.add_edge_undirected, Graph.has_edge, hi, hj, Except.bind]
  · simp [WeightedGraph.add_edge_undirected, WeightedGraph.has_edge, hi, hj,
      Except.bind]
  · simp [WeightedGraph.add_edge_undirected, WeightedGraph.has_edge, hi, hj,
      Except.bind]
  · simp [WeightedGraph.add_edge_undirected, WeightedGraph.get_edge, hi, hj,
      Except.bind]
  · simp [WeightedGraph.add_edge_undirected, WeightedGraph.get_edge, hi, hj,
      Except.bind]

/-- C8 witness: the theorem at N = 1 with i = j = 0 — the self-loop
case the claim includes — and weight 5. -/
theorem C8_witness :
    ((Graph.new 1).add_edge 0 0).bind (fun h => h.add_edge 0 0) =
      (Graph.new 1).add_edge_undirected 0 0 ∧
    ((WeightedGraph.new 1).add_edge 0 0 5).bind (fun h => h.add_edge 0 0 5) =
      (WeightedGraph.new 1).add_edge_undirected 0 0 5 ∧
    ((Graph.new 1).add_edge_undirected 0 0).bind
      (fun h => h.has_edge 0 0) = .ok true ∧
    ((Graph.new 1).add_edge_undirected 0 0).bind
      (fun h => h.has_edge 0 0) = .ok true ∧
    ((WeightedGraph.new 1).add_edge_undirected 0 0 5).bind
      (fun h => h.has_edge 0 0) = .ok true ∧
    ((WeightedGraph.new 1).add_edge_undirected 0 0 5).bind
      (fun h => h.has_edge 0 0) = .ok true ∧
    ((WeightedGraph.new 1).add_edge_undirected 0 0 5).bind
      (fun h => h.get_edge 0 0) = .ok (some 5) ∧
    ((WeightedGraph.new 1).add_edge_undirected 0 0 5).bind
      (fun h => h.get_edge 0 0) = .ok (some 5) :=
  C8_undirected_both 1 (Graph.new 1) (WeightedGraph.new 1) 0 0 5
    (by decide) (by decide)

/-- C9: for valid i, j and any starting state, remove_edge immediately
after add_edge (with any weight on the weighted variant) leaves
has_edge i j false, and remove_edge_undirected immediately after
add_edge_undirected leaves both has_edge i j and has_edge j i false. -/
theorem C9_remove_inverts (n : ℕ) (g : Graph n) (wg : WeightedGraph n)
    (i j : ℕ) (w : ℚ) (hi : i < n) (hj : j < n) :
    ((g.add_edge i j).bind (fun h => h.remove_edge i j)).bind
      (fun h => h.has_edge i j) = .ok false ∧
    ((wg.add_edge i j w).bind (fun h => h.remove_edge i j)).bind
      (fun h => h.has_edge i j) = .ok false ∧
    ((g.add_edge_undirected i j).bind
      (fun h => h.remove_edge_undirected i j)).bind
      (fun h => h.has_edge i j) = .ok false ∧
    ((g.add_edge_undirected i j).bind
      (fun h => h.remove_edge_undirected i j)).bind
      (fun h => h.has_edge j i) = .ok false ∧
    ((wg.add_edge_undirected i j w).bind
      (fun h => h.remove_edge_undirected i j)).bind
      (fun h => h.has_edge i j) = .ok false ∧
    ((wg.add_edge_undirected i j w).bind
      (fun h => h.remove_edge_undirected i j)).bind
      (fun h => h.has_edge j i) = .ok false := by
  refine ⟨?_, ?_, ?_, ?_, ?_, ?_⟩ <;>
    simp [Graph.add_edge, Graph.remove_edge, Graph.add_edge_undirected,
      Graph.remove_edge_undirected, Graph.has_edge,
      WeightedGraph.add_edge, WeightedGraph.remove_edge,
      WeightedGraph.add_edge_undirected, WeightedGraph.remove_edge_undirected,
      WeightedGraph.has_edge, hi, hj, Except.bind]

/-- C9 witness: the theorem at N = 2, i = 0, j = 1, weight 3 on the
empty graphs. -/
theorem C9_witness :
    (((Graph.new 2).add_edge 0 1).bind (fun h => h.remove_edge 0 1)).bind
      (fun h => h.has_edge 0 1) = .ok false ∧
    (((WeightedGraph.new 2).add_edge 0 1 3).bind
      (fun h => h.remove_edge 0 1)).bind
      (fun h => h.has_edge 0 1) = .ok false ∧
    (((Graph.new 2).add_edge_undirected 0 1).bind
      (fun h => h.remove_edge_undirected 0 1)).bind
      (fun h => h.has_edge 0 1) = .ok false ∧
    (((Graph.new 2).add_edge_undirected 0 1).bind
      (fun h => h.remove_edge_undirected 0 1)).bind
      (fun h => h.has_edge 1 0) = .ok false ∧
    (((WeightedGraph.new 2).add_edge_undirected 0 1 3).bind
      (fun h => h.remove_edge_undirected 0 1)).bind
      (fun h => h.has_edge 0 1) = .ok false ∧
    (((WeightedGraph.new 2).add_edge_undirected 0 1 3).bind
      (fun h => h.remove_edge_undirected 0 1)).bind
      (fun h => h.has_edge 1 0) = .ok false :=
  C9_remove_inverts 2 (Graph.new 2) (WeightedGraph.new 2) 0 1 3
    (by decide) (by decide)

/-- C10: the presence projection (Some ↦ true, None ↦ false) is a
simulation from WeightedGraph to Graph, for arbitrary — valid or not —
arguments: it sends new to new and commutes with add_edge,
add_edge_undirected, remove_edge, remove_edge_undirected and clear (the
failure cases agreeing as well), and under it has_edge, get_edges,
get_inverse_edges, max_number_of_edges and density of the weighted
variant agree with the unweighted ones on every state, reachable states
included. -/
theorem C10_presence_projection (n : ℕ) (wg : WeightedGraph n)
    (i j v : ℕ) (w : ℚ) :
    (WeightedGraph.new n).toGraph = Graph.new n ∧
    (wg.add_edge i j w).map WeightedGraph.toGraph = wg.toGraph.add_edge i j ∧
    (wg.add_edge_undirected i j w).map WeightedGraph.toGraph =
      wg.toGraph.add_edge_undirected i j ∧
    (wg.remove_edge i j).map WeightedGraph.toGraph =
      wg.toGraph.remove_edge i j ∧
    (wg.remove_edge_undirected i j).map WeightedGraph.toGraph =
      wg.toGraph.remove_edge_undirected i j ∧
    (WeightedGraph.clear wg).toGraph = Graph.clear wg.toGraph ∧
    wg.has_edge i j = wg.toGraph.has_edge i j ∧
    (wg.get_edges v).map (fun r => fun b => (r b).isSome) =
      wg.toGraph.get_edges v ∧
    (wg.get_inverse_edges v).map (fun r => fun a => (r a).isSome) =
      wg.toGraph.get_inverse_edges v ∧
    WeightedGraph.max_number_of_edges n = Graph.max_number_of_edges n ∧
    wg.density = wg.toGraph.density := by
  refine ⟨rfl, ?_, ?_, ?_, ?_, rfl, ?_, ?_, ?_, rfl, rfl⟩
  · by_cases hv : i < n ∧ j < n <;>
      simp [WeightedGraph.add_edge, Graph.add_edge, WeightedGraph.toGraph,
        hv, Except.map, apply_ite Option.isSome]
  · by_cases hv : i < n ∧ j < n <;>
      simp [WeightedGraph.add_edge_undirected, Graph.add_edge_undirected,
        WeightedGraph.toGraph, hv, Except.map, apply_ite Option.isSome]
  · by_cases hv : i < n ∧ j < n <;>
      simp [WeightedGraph.remove_edge, Graph.remove_edge,
        WeightedGraph.toGraph, hv, Except.map, apply_ite Option.isSome]
  · by_cases hv : i < n ∧ j < n <;>
      simp [WeightedGraph.remove_edge_undirected, Graph.remove_edge_undirected,
        WeightedGraph.toGraph, hv, Except.map, apply_ite Option.isSome]
  · by_cases hv : i < n ∧ j < n <;>
      simp [WeightedGraph.has_edge, Graph.has_edge, WeightedGraph.toGraph, hv]
  · by_cases hv : v < n <;>
      simp [WeightedGraph.get_edges, Graph.get_edges, WeightedGraph.toGraph,
        hv, Except.map]
  · by_cases hv : v < n
    · simp [WeightedGraph.get_inverse_edges, Graph.get_inverse_edges,
        WeightedGraph.toGraph, hv, Except.map]
    · by_cases hz : n = 0 <;>
        simp [WeightedGraph.get_inverse_edges, Graph.get_inverse_edges,
          WeightedGraph.toGraph, hv, hz, Except.map]
